import Mathlib

/-!
Verification of `Scripts/download_data.py`: a tool that fetches daily OHLC
bars for one equity symbol, re-encodes them into LEAN's fixed-point daily
CSV format (`yyyyMMdd HH:mm,open,high,low,close,volume`, prices scaled by
10000 and truncated toward zero) and packages the result as a single-entry
zip archive `<symbol_lower>.zip` containing `<symbol_lower>.csv`.

Shallow embedding conventions:
* Python floats are modelled as exact rationals (`ℚ`); the spec treats
  binary floating-point representation error as an accepted caveat, so the
  idealised arithmetic is the object of the claims.
* `int(x)` on a float (truncation toward zero) is `pyInt`.
* The filesystem is a partial map from path strings to entries; a zip
  archive is an entry holding its list of (name, contents) members.
* The Yahoo-Finance adapter (`yf.download`) is an uninterpreted function
  from the queried symbol to the ordered list of daily bars.
-/

/-- A calendar date, as carried by one daily bar. -/
structure Date where
  year : Nat
  month : Nat
  day : Nat
deriving DecidableEq, Repr

/-- One adjusted daily bar as produced by the data-source adapter
(`yf.download`): the `Open`/`High`/`Low`/`Close` columns (floats, modelled
as exact rationals) and the integer `Volume` column. -/
structure RawBar where
  date : Date
  Open : ℚ
  High : ℚ
  Low : ℚ
  Close : ℚ
  Volume : ℤ
deriving DecidableEq, Repr

/-- Python `int(_)` applied to a real value: truncation toward zero. -/
def pyInt (q : ℚ) : ℤ :=
  if 0 ≤ q then ⌊q⌋ else ⌈q⌉

/-- The constant `MULTIPLIER = 10000` from the script. -/
def MULTIPLIER : ℚ := 10000

/-- The function `convert_price_value(val) = int(float(val) * MULTIPLIER)`:
multiply by the scale factor and truncate the product toward zero. -/
def convert_price_value (val : ℚ) : ℤ :=
  pyInt (val * MULTIPLIER)

/-- Decimal rendering of `n` left-padded with zeros to width `w`
(as `strftime` does for its numeric fields). -/
def padZero (w : Nat) (n : Nat) : String :=
  ⟨List.replicate (w - (toString n).length) '0' ++ (toString n).data⟩

/-- The timestamp `date.strftime("%Y%m%d 00:00")`: the calendar date as `YYYYMMDD`
followed by a space and the literal `00:00`. -/
def strftimeYmd0000 (d : Date) : String :=
  padZero 4 d.year ++ padZero 2 d.month ++ padZero 2 d.day ++ " 00:00"

/-- The record for one bar, as the spec's `EncodedRecord`: the midnight
timestamp, the four scaled prices and the verbatim volume. -/
structure EncodedRecord where
  timestamp : String
  open_i : ℤ
  high_i : ℤ
  low_i : ℤ
  close_i : ℤ
  volume_i : ℤ
deriving DecidableEq, Repr

/-- The Bar Encoder: the body of the `for date, row in data.iterrows()`
loop, viewed as a pure function producing the spec's `EncodedRecord`. -/
def encode (b : RawBar) : EncodedRecord :=
  { timestamp := strftimeYmd0000 b.date
    open_i := convert_price_value b.Open
    high_i := convert_price_value b.High
    low_i := convert_price_value b.Low
    close_i := convert_price_value b.Close
    volume_i := b.Volume }

/-- The f-string `f"{dt},{open_val},{high_val},{low_val},{close_val},{volume_val}"`
appended to `formatted_data` for one bar. -/
def formatBar (b : RawBar) : String :=
  let dt := strftimeYmd0000 b.date
  let open_val := convert_price_value b.Open
  let high_val := convert_price_value b.High
  let low_val := convert_price_value b.Low
  let close_val := convert_price_value b.Close
  let volume_val := b.Volume
  dt ++ "," ++ toString open_val ++ "," ++ toString high_val ++ ","
     ++ toString low_val ++ "," ++ toString close_val ++ "," ++ toString volume_val

/-- The `formatted_data` list built by the loop: one line per bar, in
input order. -/
def formatted_data (bars : List RawBar) : List String :=
  bars.map formatBar

/-- A filesystem entry: a plain text file, or a zip archive listed as its
(member name, member contents) pairs. -/
inductive Entry where
  | text (s : String)
  | zip (members : List (String × String))
deriving DecidableEq, Repr

/-- The filesystem: a partial map from absolute path to entry. -/
def FS : Type := String → Option Entry

/-- The empty filesystem. -/
def FS.empty : FS := fun _ => none

/-- Write (create or fully replace) the entry at path `p`. Both
`open(csv_path, "w")` and `zipfile.ZipFile(zip_path, "w")` have this
replace semantics. -/
def FS.set (fs : FS) (p : String) (e : Entry) : FS :=
  fun q => if q = p then some e else fs q

/-- Deletion, `os.remove(p)`. -/
def FS.remove (fs : FS) (p : String) : FS :=
  fun q => if q = p then none else fs q

/-- Read the entry at path `p`. -/
def FS.get (fs : FS) (p : String) : Option Entry := fs p

/-- Path concatenation, `os.path.join` (the script runs against a Windows root, so the
separator is a backslash; nothing below depends on the separator). -/
def joinPath (a b : String) : String := a ++ "\\" ++ b

/-- The root `lean_data_dir = r"C:\GitRepo\Finance\LeanFork\Data"`. -/
def lean_data_dir : String := "C:\\GitRepo\\Finance\\LeanFork\\Data"

/-- The directory `output_dir = os.path.join(lean_data_dir, "equity", "usa", "daily")`. -/
def output_dir : String :=
  joinPath (joinPath (joinPath lean_data_dir "equity") "usa") "daily"

/-- Python `str.upper()`: uppercase every character (the symbols at stake
are ASCII tickers, where per-character case mapping is exact). -/
def pyUpper (s : String) : String := ⟨s.data.map Char.toUpper⟩

/-- Python `str.lower()`: lowercase every character. -/
def pyLower (s : String) : String := ⟨s.data.map Char.toLower⟩

/-- The symbol actually queried: `sys.argv[1].upper()`. -/
def querySymbol (argvSymbol : String) : String := pyUpper argvSymbol

/-- The name stem `symbol_lower = symbol.lower()` where `symbol = sys.argv[1].upper()`. -/
def symbolLower (argvSymbol : String) : String := pyLower (querySymbol argvSymbol)

/-- The staging path `csv_path = os.path.join(output_dir, f"{symbol_lower}.csv")`. -/
def csvPath (argvSymbol : String) : String :=
  joinPath output_dir (symbolLower argvSymbol ++ ".csv")

/-- The archive path `zip_path = os.path.join(output_dir, f"{symbol_lower}.zip")`. -/
def zipPath (argvSymbol : String) : String :=
  joinPath output_dir (symbolLower argvSymbol ++ ".zip")

/-- The failure conditions `main` can exit 1 with after argument parsing:
the empty-result ("No data found") condition. -/
inductive MainError where
  | noData
deriving DecidableEq, Repr

/-- The adapter interface: `yf.download` as a function from the queried
symbol to the ordered bar list (the date range is fixed per invocation and
folded into the adapter). -/
def Adapter : Type := String → List RawBar

/-- The body of `main` after argument parsing, acting on the filesystem:
query the adapter with the uppercased symbol; if no data, exit 1 with the
"no data" condition touching nothing; otherwise build `formatted_data`,
write the newline-joined records to `csv_path`, create the zip at
`zip_path` with sole member `<symbol_lower>.csv` holding the bytes read
back from `csv_path`, and remove `csv_path`. -/
def mainRun (fs : FS) (adapter : Adapter) (argvSymbol : String) :
    Except MainError FS :=
  let symbol := pyUpper argvSymbol
  let data := adapter symbol
  if data.isEmpty then
    Except.error MainError.noData
  else
    let fdata := formatted_data data
    let symbol_lower := pyLower symbol
    let csv_path := joinPath output_dir (symbol_lower ++ ".csv")
    let zip_path := joinPath output_dir (symbol_lower ++ ".zip")
    let fs1 := fs.set csv_path (Entry.text (String.intercalate "\n" fdata))
    let staged : String := match fs1.get csv_path with
      | some (Entry.text s) => s
      | _ => ""
    let fs2 := fs1.set zip_path (Entry.zip [(symbol_lower ++ ".csv", staged)])
    let fs3 := fs2.remove csv_path
    Except.ok fs3

/-- The filesystem after `main` returns or exits: on the error path the
script exits before touching any file, so the filesystem is unchanged. -/
def mainFinalFS (fs : FS) (adapter : Adapter) (argvSymbol : String) : FS :=
  match mainRun fs adapter argvSymbol with
  | Except.ok fs1 => fs1
  | Except.error _ => fs

/-- The process exit status: 1 on the "no data" path, 0 on success. -/
def mainExitCode (fs : FS) (adapter : Adapter) (argvSymbol : String) : Nat :=
  match mainRun fs adapter argvSymbol with
  | Except.ok _ => 0
  | Except.error _ => 1

/-! ## Spec-side rendering (for the output-line refinement claim) -/

/-- The timestamp as the spec words it: the bar's calendar date rendered
as `YYYYMMDD`, followed by a single space and the literal string `00:00`. -/
def specTimestamp (d : Date) : String :=
  (padZero 4 d.year ++ padZero 2 d.month ++ padZero 2 d.day) ++ " " ++ "00:00"

/-- The output line as the spec words it: the fields joined by commas, in
the fixed order `timestamp,open_i,high_i,low_i,close_i,volume_i`, with the
volume copied from the bar without scaling. -/
def specRecordLine (b : RawBar) : String :=
  String.intercalate ","
    [specTimestamp b.date, toString (encode b).open_i, toString (encode b).high_i,
     toString (encode b).low_i, toString (encode b).close_i, toString b.Volume]

/-! ## The concrete AAPL scenario from the spec -/

/-- The 2023-01-03 AAPL bar of the spec's worked scenario. -/
def aaplBar : RawBar :=
  { date := ⟨2023, 1, 3⟩, Open := 130.0, High := 131.5, Low := 129.25,
    Close := 131.0, Volume := 1000 }

/-- An adapter that returns exactly that bar for `AAPL` (and no data for
anything else). -/
def aaplAdapter : Adapter :=
  fun sym => if sym = "AAPL" then [aaplBar] else []

/-! ## Helper lemmas -/

theorem FS.get_set_self (fs : FS) (p : String) (e : Entry) :
    (fs.set p e) p = some e := by
  simp [FS.set]

theorem FS.get_set_ne (fs : FS) (p : String) (e : Entry) (q : String)
    (h : q ≠ p) : (fs.set p e) q = fs q := by
  simp [FS.set, h]

theorem FS.get_remove_self (fs : FS) (p : String) : (fs.remove p) p = none := by
  simp [FS.remove]

theorem FS.get_remove_ne (fs : FS) (p : String) (q : String) (h : q ≠ p) :
    (fs.remove p) q = fs q := by
  simp [FS.remove, h]

/-- Two joins under the same directory with distinct final components are
distinct paths. -/
theorem joinPath_ne_of_ne (d : String) {a b : String} (h : a ≠ b) :
    joinPath d a ≠ joinPath d b := by
  intro hEq
  apply h
  have h2 := congrArg String.data hEq
  simp only [joinPath, String.data_append] at h2
  exact String.ext (List.append_cancel_left h2)

/-- Appending distinct suffixes to the same string yields distinct strings. -/
theorem append_ne_of_suffix_ne (s : String) {a b : String}
    (h : a.data ≠ b.data) : s ++ a ≠ s ++ b := by
  intro hEq
  apply h
  have h2 := congrArg String.data hEq
  simp only [String.data_append] at h2
  exact List.append_cancel_left h2

theorem csvPath_ne_zipPath (s : String) : csvPath s ≠ zipPath s := by
  unfold csvPath zipPath
  exact joinPath_ne_of_ne _
    (append_ne_of_suffix_ne _ (by decide))

/-- On a non-empty adapter result, `main` takes the success path: stage the
newline-joined records at `csv_path`, zip them at `zip_path`, remove the
staging file. -/
theorem mainRun_ok (fs : FS) (adapter : Adapter) (s : String)
    (h : adapter (querySymbol s) ≠ []) :
    mainRun fs adapter s = Except.ok
      (((fs.set (csvPath s)
            (Entry.text (String.intercalate "\n"
              (formatted_data (adapter (querySymbol s)))))).set
          (zipPath s)
          (Entry.zip [(symbolLower s ++ ".csv",
            String.intercalate "\n"
              (formatted_data (adapter (querySymbol s))))])).remove
        (csvPath s)) := by
  have hne : (adapter (pyUpper s)).isEmpty = false := by
    rw [List.isEmpty_eq_false]
    exact h
  unfold mainRun
  simp only [hne, Bool.false_eq_true, if_false, FS.get, FS.set, if_pos rfl]
  rfl

/-- The archive present at `zip_path` after a successful run. -/
theorem mainFinalFS_zip (fs : FS) (adapter : Adapter) (s : String)
    (h : adapter (querySymbol s) ≠ []) :
    (mainFinalFS fs adapter s) (zipPath s)
      = some (Entry.zip [(symbolLower s ++ ".csv",
          String.intercalate "\n" (formatted_data (adapter (querySymbol s))))]) := by
  simp only [mainFinalFS, mainRun_ok fs adapter s h]
  rw [FS.get_remove_ne _ _ _ (csvPath_ne_zipPath s).symm]
  exact FS.get_set_self ..

/-- The staging file is gone after a successful run. -/
theorem mainFinalFS_csv (fs : FS) (adapter : Adapter) (s : String)
    (h : adapter (querySymbol s) ≠ []) :
    (mainFinalFS fs adapter s) (csvPath s) = none := by
  simp only [mainFinalFS, mainRun_ok fs adapter s h]
  exact FS.get_remove_self ..

/-- Truncation toward zero agrees with the floor on non-negative inputs. -/
theorem convert_price_value_eq_floor {q : ℚ} (hq : 0 ≤ q) :
    convert_price_value q = ⌊q * 10000⌋ := by
  unfold convert_price_value pyInt MULTIPLIER
  rw [if_pos (mul_nonneg hq (by norm_num))]

/-- The truncating conversion is monotone on non-negative prices. -/
theorem convert_price_value_mono {p q : ℚ} (hp : 0 ≤ p) (hpq : p ≤ q) :
    convert_price_value p ≤ convert_price_value q := by
  rw [convert_price_value_eq_floor hp, convert_price_value_eq_floor (hp.trans hpq)]
  exact Int.floor_mono (mul_le_mul_of_nonneg_right hpq (by norm_num))

/-! ## Claims -/

/-- C1: for a bar with non-negative (finite) prices, each of the four
price fields open/high/low/close is encoded as the product with the fixed
scale factor 10000 truncated toward zero; on such input each field equals
the floor of that product (no rounding half-up). -/
theorem encode_price_fields_floor (b : RawBar)
    (ho : 0 ≤ b.Open) (hh : 0 ≤ b.High) (hl : 0 ≤ b.Low) (hc : 0 ≤ b.Close) :
    (encode b).open_i = ⌊b.Open * 10000⌋ ∧
    (encode b).high_i = ⌊b.High * 10000⌋ ∧
    (encode b).low_i = ⌊b.Low * 10000⌋ ∧
    (encode b).close_i = ⌊b.Close * 10000⌋ :=
  ⟨convert_price_value_eq_floor ho, convert_price_value_eq_floor hh,
   convert_price_value_eq_floor hl, convert_price_value_eq_floor hc⟩

/-- Witness for C1 at the concrete 2023-01-03 AAPL bar. -/
theorem encode_price_fields_floor_witness :
    (encode aaplBar).open_i = ⌊aaplBar.Open * 10000⌋ ∧
    (encode aaplBar).high_i = ⌊aaplBar.High * 10000⌋ ∧
    (encode aaplBar).low_i = ⌊aaplBar.Low * 10000⌋ ∧
    (encode aaplBar).close_i = ⌊aaplBar.Close * 10000⌋ :=
  encode_price_fields_floor aaplBar (by norm_num [aaplBar]) (by norm_num [aaplBar])
    (by norm_num [aaplBar]) (by norm_num [aaplBar])

/-- C2: every output line is the fields joined by commas in the fixed
order timestamp,open_i,high_i,low_i,close_i,volume_i, the timestamp being
the date as YYYYMMDD, a single space and the literal 00:00, and the volume
copied without scaling. -/
theorem formatBar_eq_specRecordLine (b : RawBar) :
    formatBar b = specRecordLine b := by
  apply String.ext
  simp [formatBar, specRecordLine, specTimestamp, strftimeYmd0000, encode,
    String.intercalate, String.intercalate.go, String.data_append]

/-- C3: for a non-empty record sequence, the archive lives at
`<symbol_lowercased>.zip`, contains exactly one entry named
`<symbol_lowercased>.csv`, and that entry's contents are the records
joined with single newlines and no trailing newline. -/
theorem archive_single_entry (fs : FS) (adapter : Adapter) (s : String)
    (h : adapter (querySymbol s) ≠ []) :
    zipPath s = joinPath output_dir (symbolLower s ++ ".zip") ∧
    (mainFinalFS fs adapter s) (zipPath s)
      = some (Entry.zip [(symbolLower s ++ ".csv",
          String.intercalate "\n" (formatted_data (adapter (querySymbol s))))]) :=
  ⟨rfl, mainFinalFS_zip fs adapter s h⟩

/-- Witness for C3 at the concrete AAPL scenario. -/
theorem archive_single_entry_witness :
    aaplAdapter (querySymbol "AAPL") ≠ [] ∧
    (zipPath "AAPL" = joinPath output_dir (symbolLower "AAPL" ++ ".zip") ∧
     (mainFinalFS FS.empty aaplAdapter "AAPL") (zipPath "AAPL")
       = some (Entry.zip [(symbolLower "AAPL" ++ ".csv",
           String.intercalate "\n"
             (formatted_data (aaplAdapter (querySymbol "AAPL"))))])) :=
  ⟨by decide, archive_single_entry FS.empty aaplAdapter "AAPL" (by decide)⟩

/-- C4: if the adapter yields zero bars, the run fails with the distinct
"no data" condition and exit status 1, leaves the whole filesystem
untouched, and in particular creates no archive. -/
theorem no_data_fails_without_archive (fs : FS) (adapter : Adapter) (s : String)
    (h : adapter (querySymbol s) = []) :
    mainRun fs adapter s = Except.error MainError.noData ∧
    mainExitCode fs adapter s = 1 ∧
    (∀ p, mainFinalFS fs adapter s p = fs p) ∧
    (fs (zipPath s) = none → (mainFinalFS fs adapter s) (zipPath s) = none) := by
  have hrun : mainRun fs adapter s = Except.error MainError.noData := by
    unfold mainRun
    simp only [querySymbol] at h
    simp [h]
  refine ⟨hrun, ?_, fun p => ?_, fun hz => ?_⟩
  · unfold mainExitCode
    rw [hrun]
  · unfold mainFinalFS
    rw [hrun]
  · unfold mainFinalFS
    rw [hrun]
    exact hz

/-- Witness for C4: an adapter with no data at all. -/
theorem no_data_fails_without_archive_witness :
    (fun _ : String => ([] : List RawBar)) (querySymbol "MSFT") = [] ∧
    (mainRun FS.empty (fun _ => []) "MSFT" = Except.error MainError.noData ∧
     mainExitCode FS.empty (fun _ => []) "MSFT" = 1 ∧
     (∀ p, mainFinalFS FS.empty (fun _ => []) "MSFT" p = FS.empty p) ∧
     (FS.empty (zipPath "MSFT") = none →
       (mainFinalFS FS.empty (fun _ => []) "MSFT") (zipPath "MSFT") = none)) :=
  ⟨rfl, no_data_fails_without_archive FS.empty (fun _ => []) "MSFT" rfl⟩

/-- C5: the encoding stage is a length- and order-preserving map: the
line list has one line per bar, the i-th line encodes the i-th bar, and
the archived CSV is exactly those lines joined by newlines. -/
theorem encoding_preserves_length_order (fs : FS) (adapter : Adapter) (s : String)
    (h : adapter (querySymbol s) ≠ []) :
    (formatted_data (adapter (querySymbol s))).length
        = (adapter (querySymbol s)).length ∧
    (∀ i, (formatted_data (adapter (querySymbol s))).get? i
        = ((adapter (querySymbol s)).get? i).map formatBar) ∧
    (mainFinalFS fs adapter s) (zipPath s)
      = some (Entry.zip [(symbolLower s ++ ".csv",
          String.intercalate "\n" (formatted_data (adapter (querySymbol s))))]) := by
  refine ⟨?_, fun i => ?_, mainFinalFS_zip fs adapter s h⟩
  · simp [formatted_data]
  · simp [formatted_data, List.get?_eq_getElem?]

/-- Witness for C5 at the concrete AAPL scenario. -/
theorem encoding_preserves_length_order_witness :
    aaplAdapter (querySymbol "AAPL") ≠ [] ∧
    ((formatted_data (aaplAdapter (querySymbol "AAPL"))).length
        = (aaplAdapter (querySymbol "AAPL")).length ∧
     (∀ i, (formatted_data (aaplAdapter (querySymbol "AAPL"))).get? i
        = ((aaplAdapter (querySymbol "AAPL")).get? i).map formatBar) ∧
     (mainFinalFS FS.empty aaplAdapter "AAPL") (zipPath "AAPL")
       = some (Entry.zip [(symbolLower "AAPL" ++ ".csv",
           String.intercalate "\n"
             (formatted_data (aaplAdapter (querySymbol "AAPL"))))])) :=
  ⟨by decide, encoding_preserves_length_order FS.empty aaplAdapter "AAPL" (by decide)⟩

/-- C6: for a well-formed bar with 0 ≤ low ≤ {open, close} ≤ high, the
encoded record satisfies low_i ≤ {open_i, close_i} ≤ high_i: the ordering
invariant survives the truncating fixed-point conversion. -/
theorem encode_preserves_ohlc_order (b : RawBar) (h0 : 0 ≤ b.Low)
    (h1 : b.Low ≤ b.Open) (h2 : b.Open ≤ b.High)
    (h3 : b.Low ≤ b.Close) (h4 : b.Close ≤ b.High) :
    ((encode b).low_i ≤ (encode b).open_i ∧ (encode b).open_i ≤ (encode b).high_i) ∧
    ((encode b).low_i ≤ (encode b).close_i ∧ (encode b).close_i ≤ (encode b).high_i) :=
  ⟨⟨convert_price_value_mono h0 h1, convert_price_value_mono (h0.trans h1) h2⟩,
   ⟨convert_price_value_mono h0 h3, convert_price_value_mono (h0.trans h3) h4⟩⟩

/-- Witness for C6 at the concrete 2023-01-03 AAPL bar. -/
theorem encode_preserves_ohlc_order_witness :
    (((encode aaplBar).low_i ≤ (encode aaplBar).open_i ∧
      (encode aaplBar).open_i ≤ (encode aaplBar).high_i) ∧
     ((encode aaplBar).low_i ≤ (encode aaplBar).close_i ∧
      (encode aaplBar).close_i ≤ (encode aaplBar).high_i)) :=
  encode_preserves_ohlc_order aaplBar (by norm_num [aaplBar]) (by norm_num [aaplBar])
    (by norm_num [aaplBar]) (by norm_num [aaplBar]) (by norm_num [aaplBar])

/-- The concrete line the 2023-01-03 AAPL bar encodes to. -/
theorem aapl_line :
    formatBar aaplBar = "20230103 00:00,1300000,1315000,1292500,1310000,1000" := by
  have h1 : convert_price_value aaplBar.Open = 1300000 := by
    norm_num [aaplBar, convert_price_value, pyInt, MULTIPLIER]
  have h2 : convert_price_value aaplBar.High = 1315000 := by
    norm_num [aaplBar, convert_price_value, pyInt, MULTIPLIER]
  have h3 : convert_price_value aaplBar.Low = 1292500 := by
    norm_num [aaplBar, convert_price_value, pyInt, MULTIPLIER]
  have h4 : convert_price_value aaplBar.Close = 1310000 := by
    norm_num [aaplBar, convert_price_value, pyInt, MULTIPLIER]
  simp only [formatBar, h1, h2, h3, h4]
  decide

/-- C7: on the spec's worked scenario (sole bar 2023-01-03,
open=130.0, high=131.5, low=129.25, close=131.0, volume=1000 for AAPL)
the encoder produces exactly the expected line and the archive holds
`aapl.csv` with exactly that line. -/
theorem aapl_scenario :
    formatBar aaplBar = "20230103 00:00,1300000,1315000,1292500,1310000,1000" ∧
    (mainFinalFS FS.empty aaplAdapter "AAPL") (zipPath "AAPL")
      = some (Entry.zip [("aapl.csv",
          "20230103 00:00,1300000,1315000,1292500,1310000,1000")]) := by
  refine ⟨aapl_line, ?_⟩
  rw [mainFinalFS_zip FS.empty aaplAdapter "AAPL" (by decide)]
  have hd : formatted_data (aaplAdapter (querySymbol "AAPL")) = [formatBar aaplBar] := rfl
  rw [hd, aapl_line]
  rfl

/-- C8: reruns with identical arguments and upstream data are idempotent:
the second run's archive equals the first run's, and the archive produced
does not depend on the prior filesystem state (full replacement). -/
theorem rerun_idempotent (fs gs : FS) (adapter : Adapter) (s : String)
    (h : adapter (querySymbol s) ≠ []) :
    (mainFinalFS (mainFinalFS fs adapter s) adapter s) (zipPath s)
      = (mainFinalFS fs adapter s) (zipPath s) ∧
    (mainFinalFS fs adapter s) (zipPath s)
      = (mainFinalFS gs adapter s) (zipPath s) := by
  constructor <;>
    rw [mainFinalFS_zip _ _ _ h, mainFinalFS_zip _ _ _ h]

/-- Witness for C8 at the concrete AAPL scenario. -/
theorem rerun_idempotent_witness :
    aaplAdapter (querySymbol "AAPL") ≠ [] ∧
    ((mainFinalFS (mainFinalFS FS.empty aaplAdapter "AAPL") aaplAdapter "AAPL")
        (zipPath "AAPL")
      = (mainFinalFS FS.empty aaplAdapter "AAPL") (zipPath "AAPL") ∧
     (mainFinalFS FS.empty aaplAdapter "AAPL") (zipPath "AAPL")
      = (mainFinalFS (fun _ => some (Entry.text "old")) aaplAdapter "AAPL")
          (zipPath "AAPL")) :=
  ⟨by decide,
   rerun_idempotent FS.empty (fun _ => some (Entry.text "old")) aaplAdapter "AAPL"
     (by decide)⟩

/-- C9: after a successful run the staging `<symbol_lowercased>.csv` is
gone, the zip is present, and every path other than the staging file and
the archive is untouched: the archive is the only artifact left for the
symbol. -/
theorem staging_file_removed (fs : FS) (adapter : Adapter) (s : String)
    (h : adapter (querySymbol s) ≠ []) :
    (mainFinalFS fs adapter s) (csvPath s) = none ∧
    (mainFinalFS fs adapter s) (zipPath s)
      = some (Entry.zip [(symbolLower s ++ ".csv",
          String.intercalate "\n" (formatted_data (adapter (querySymbol s))))]) ∧
    (∀ p, p ≠ csvPath s → p ≠ zipPath s →
      (mainFinalFS fs adapter s) p = fs p) := by
  refine ⟨mainFinalFS_csv fs adapter s h, mainFinalFS_zip fs adapter s h, ?_⟩
  intro p hpc hpz
  simp only [mainFinalFS, mainRun_ok fs adapter s h]
  rw [FS.get_remove_ne _ _ _ hpc, FS.get_set_ne _ _ _ _ hpz,
    FS.get_set_ne _ _ _ _ hpc]

/-- Witness for C9 at the concrete AAPL scenario. -/
theorem staging_file_removed_witness :
    aaplAdapter (querySymbol "AAPL") ≠ [] ∧
    ((mainFinalFS FS.empty aaplAdapter "AAPL") (csvPath "AAPL") = none ∧
     (mainFinalFS FS.empty aaplAdapter "AAPL") (zipPath "AAPL")
       = some (Entry.zip [(symbolLower "AAPL" ++ ".csv",
           String.intercalate "\n"
             (formatted_data (aaplAdapter (querySymbol "AAPL"))))]) ∧
     (∀ p, p ≠ csvPath "AAPL" → p ≠ zipPath "AAPL" →
       (mainFinalFS FS.empty aaplAdapter "AAPL") p = FS.empty p)) :=
  ⟨by decide, staging_file_removed FS.empty aaplAdapter "AAPL" (by decide)⟩

/-- C10: the symbol is case-normalized before use: the provider is
queried with the uppercased argument, the archive and entry names use the
lowercase of that uppercased symbol, and two invocations whose symbol
arguments agree up to letter case behave identically. -/
theorem symbol_case_normalized (s t : String) (h : pyUpper s = pyUpper t) :
    querySymbol s = pyUpper s ∧
    symbolLower s = pyLower (pyUpper s) ∧
    querySymbol s = querySymbol t ∧
    zipPath s = zipPath t ∧
    csvPath s = csvPath t ∧
    ∀ fs adapter, mainFinalFS fs adapter s = mainFinalFS fs adapter t := by
  have hq : querySymbol s = querySymbol t := h
  have hl : symbolLower s = symbolLower t := by
    unfold symbolLower
    rw [hq]
  refine ⟨rfl, rfl, hq, ?_, ?_, ?_⟩
  · unfold zipPath
    rw [hl]
  · unfold csvPath
    rw [hl]
  · intro fs adapter
    have hm : mainRun fs adapter s = mainRun fs adapter t := by
      unfold mainRun
      rw [h]
    unfold mainFinalFS
    rw [hm]

/-- Witness for C10: `aapl` and `AaPl` agree up to case. -/
theorem symbol_case_normalized_witness :
    pyUpper "aapl" = pyUpper "AaPl" ∧
    (querySymbol "aapl" = pyUpper "aapl" ∧
     symbolLower "aapl" = pyLower (pyUpper "aapl") ∧
     querySymbol "aapl" = querySymbol "AaPl" ∧
     zipPath "aapl" = zipPath "AaPl" ∧
     csvPath "aapl" = csvPath "AaPl" ∧
     ∀ fs adapter, mainFinalFS fs adapter "aapl" = mainFinalFS fs adapter "AaPl") :=
  ⟨by decide, symbol_case_normalized "aapl" "AaPl" (by decide)⟩
